import Mathlib

/-!
# The CronJob reconciler (`controllers/cronjob_controller.go`)

A shallow embedding of package `controllers`: the `Clock` capability with its
production implementation `realClock`, the `CronJobReconciler` struct and its
`Reconcile` method.

Stateful code is written as explicit state passing over a `World` that holds
everything `Reconcile` could touch: the cluster (CronJobs and child Jobs), the
entries handed to the global logger, the trace of client calls issued, the
system clock and the number of times it was read.

The `error` interface of Go is `Option Error` (`none` is `nil`); a call that fills an
out-parameter and returns an `error` is an `Except Error _`.
-/

namespace controllers

/-! ## Library types the controller is written against -/

/-- A wall-clock instant (`time.Time`), as seconds since the Unix epoch. -/
abbrev Time := Int

/-- The machine-readable reason carried by an API status error
(`metav1.StatusReason`, a string type: any string can stand there). -/
abbrev StatusReason := String

/-- The reason `metav1.StatusReasonUnknown`: the empty string. -/
def StatusReasonUnknown : StatusReason := ""

/-- The reason `metav1.StatusReasonNotFound`. -/
def StatusReasonNotFound : StatusReason := "NotFound"

/-- The reason `metav1.StatusReasonForbidden`. -/
def StatusReasonForbidden : StatusReason := "Forbidden"

/-- The HTTP status code `http.StatusNotFound`. -/
def StatusNotFound : Int := 404

/-- A non-nil Go `error` value: an API status error (`*apierrors.StatusError`,
with the reason, the HTTP code and the message of its status), a plain error
(`errors.New`: `context.Canceled`, an I/O failure, ...), or an error wrapping
another one (`fmt.Errorf` with `%w`). -/
inductive Error where
  | Status (reason : StatusReason) (code : Int) (message : String)
  | Plain (message : String)
  | Wrapped (message : String) (inner : Error)
  deriving DecidableEq, Repr

/-- The key of a namespaced object (`types.NamespacedName`). -/
structure NamespacedName where
  Namespace : String
  Name : String
  deriving DecidableEq, Repr

/-- A reconciliation request (`ctrl.Request`): the namespaced identifier alone. -/
structure Request where
  NamespacedName : NamespacedName
  deriving DecidableEq, Repr

/-- The outcome of a reconciliation (`ctrl.Result`); `RequeueAfter` is a
`time.Duration` in nanoseconds. The zero value `{}` asks for nothing. -/
structure Result where
  Requeue : Bool := false
  RequeueAfter : Int := 0
  deriving DecidableEq, Repr

/-- A logger handle (`logr.Logger`), identified by its name. -/
structure Logger where
  name : String
  deriving DecidableEq, Repr

/-- The per-invocation context (`context.Context`): its cancellation state
(`ctx.Err()`) and the logger stored in it, if any. -/
structure Context where
  Err : Option Error
  logger : Option Logger
  deriving DecidableEq, Repr

/-- The runtime scheme (`runtime.Scheme`): the kinds it knows. -/
structure Scheme where
  kinds : List String
  deriving DecidableEq, Repr

/-! ## The resources -/

/-- Modelled from the spec: the desired-state portion of the Tracked Resource
(type `CronJobSpec` of package `api/v1`, whose declaration is not in the
sources at hand): schedule expression, job template, concurrency policy,
suspend flag and history-retention limits. -/
structure CronJobSpec where
  Schedule : String
  JobTemplate : String
  ConcurrencyPolicy : String
  Suspend : Option Bool
  SuccessfulJobsHistoryLimit : Option Int
  FailedJobsHistoryLimit : Option Int
  deriving DecidableEq, Repr

/-- Modelled from the spec: the observed-state portion of the Tracked Resource
(type `CronJobStatus` of package `api/v1`, whose declaration is not in the
sources at hand): the currently active child references and the
last-scheduled time. -/
structure CronJobStatus where
  Active : List NamespacedName
  LastScheduleTime : Option Time
  deriving DecidableEq, Repr

/-- Modelled from the spec: the Tracked Resource (type `CronJob` of package
`api/v1`, whose declaration is not in the sources at hand), identified by
its namespace and name, carrying a desired-state spec and an observed-state
status. -/
structure CronJob where
  Namespace : String
  Name : String
  Spec : CronJobSpec
  Status : CronJobStatus
  deriving DecidableEq, Repr

/-- Modelled from the spec: a Child Job Instance, with its owner reference back
to the Tracked Resource and its metadata annotations, among which the marker
recording the scheduled timestamp it corresponds to. -/
structure Job where
  Namespace : String
  Name : String
  Owner : Option NamespacedName
  Annotations : List (String × String)
  deriving DecidableEq, Repr

/-- An object a client call can carry. -/
inductive Object where
  | cronJob (c : CronJob)
  | job (j : Job)
  deriving DecidableEq, Repr

/-- The cluster state: the Tracked Resources and the child Job instances. -/
structure Cluster where
  cronJobs : List CronJob
  jobs : List Job
  deriving DecidableEq, Repr

/-! ## The world `Reconcile` runs in -/

/-- A call on the shared client, as it appears in the trace. -/
inductive ClientCall where
  | Get (ctx : Context) (key : NamespacedName)
  | Create (ctx : Context) (obj : Object)
  | Update (ctx : Context) (obj : Object)
  | Delete (ctx : Context) (obj : Object)
  | StatusUpdate (ctx : Context) (obj : Object)
  deriving DecidableEq, Repr

/-- The severity of a log entry. -/
inductive LogLevel where
  | info
  | error
  deriving DecidableEq, Repr

/-- One entry handed to a logger. -/
structure LogEntry where
  logger : String
  level : LogLevel
  err : Option Error
  msg : String
  deriving DecidableEq, Repr

/-- Everything an invocation can observe or change. -/
structure World where
  cluster : Cluster
  log : List LogEntry
  calls : List ClientCall
  now : Time
  clockReads : Nat
  deriving DecidableEq, Repr

/-- The shared state-access client (`client.Client`). `Get` is the read of
`client.Reader`: it answers from the context, the key and the cluster state and
cannot change the cluster. The writers are state transformers on the cluster. -/
structure Client where
  Get : Context → NamespacedName → Cluster → Except Error CronJob
  Create : Context → Object → Cluster → Option Error × Cluster
  Update : Context → Object → Cluster → Option Error × Cluster
  Delete : Context → Object → Cluster → Option Error × Cluster
  StatusUpdate : Context → Object → Cluster → Option Error × Cluster

/-! ## Library functions -/

/-- The table `knownReasons` of package `apierrors`: the reasons the library
recognises. The unknown reason is not among them. -/
def knownReasons : List StatusReason :=
  ["Unauthorized", "Forbidden", "NotFound", "AlreadyExists", "Conflict", "Gone", "Invalid",
   "ServerTimeout", "Timeout", "TooManyRequests", "BadRequest", "MethodNotAllowed",
   "NotAcceptable", "RequestEntityTooLarge", "UnsupportedMediaType", "InternalError",
   "Expired", "ServiceUnavailable"]

/-- The reason and HTTP code a non-nil error carries: those of the first API
status error found along its chain of wrapped errors (what `errors.As` finds),
the unknown reason and code 0 when there is none. -/
def Error.reasonAndCode : Error → StatusReason × Int
  | Error.Status reason code _ => (reason, code)
  | Error.Plain _ => (StatusReasonUnknown, 0)
  | Error.Wrapped _ inner => inner.reasonAndCode

/-- The reason and code of an error (`apierrors.reasonAndCodeForError`); the
unknown reason and code 0 for nil. -/
def reasonAndCodeForError : Option Error → StatusReason × Int
  | none => (StatusReasonUnknown, 0)
  | some err => err.reasonAndCode

/-- Whether an error says the object was not found (`apierrors.IsNotFound`):
its reason is `NotFound`, or its reason is none the library recognises and its
HTTP code is 404. -/
def IsNotFound (err : Option Error) : Bool :=
  let rc := reasonAndCodeForError err
  if rc.1 = StatusReasonNotFound then true
  else if ¬ (rc.1 ∈ knownReasons) ∧ rc.2 = StatusNotFound then true
  else false

/-- The helper `client.IgnoreNotFound`: nil on a not-found error, the error
itself otherwise. -/
def IgnoreNotFound (err : Option Error) : Option Error :=
  if IsNotFound err then none else err

/-- The global logger `log.Log`: the root logger, which bears no name. -/
def Log : Logger := ⟨""⟩

/-- The logger of a context (`log.FromContext`): the one stored in the context,
the global logger otherwise. -/
def FromContext (ctx : Context) : Logger :=
  match ctx.logger with
  | some l => l
  | none => Log

/-- The method `Error` of a logger: hands one entry of level error, with the
error and the message, to the log. -/
def Logger.Error (l : Logger) (err : Option Error) (msg : String) (w : World) : World :=
  { w with log := w.log ++ [{ logger := l.name, level := LogLevel.error, err := err, msg := msg }] }

/-- The system clock read `time.Now()`. -/
def timeNow (w : World) : Time × World :=
  (w.now, { w with clockReads := w.clockReads + 1 })

/-! ## Package `controllers` -/

/-- The interface `Clock`: knows how to get the current time. -/
structure Clock where
  Now : World → Time × World

/-- The struct `realClock`, whose `Now` just calls `time.Now`. -/
def realClock : Clock where
  Now := fun w => timeNow w

/-- The struct `CronJobReconciler`: the embedded client, the scheme and the
embedded clock. -/
structure CronJobReconciler where
  Client : Client
  Scheme : Scheme
  Clock : Clock

/-- The annotation key of the scheduled-time marker. -/
def scheduledTimeAnnotation : String := "batch.tutorial.kubebuilder.io/scheduled-at"

/-- The promoted method `r.Get(ctx, key, &obj)`: one call on the embedded
client, recorded in the trace. -/
def CronJobReconciler.Get (r : CronJobReconciler) (ctx : Context) (key : NamespacedName)
    (w : World) : Except Error CronJob × World :=
  (r.Client.Get ctx key w.cluster, { w with calls := w.calls ++ [ClientCall.Get ctx key] })

/-- The method `Reconcile`: fetch the CronJob named by the request; on a failed
fetch log the error on the global logger and return it unless it is a
not-found; on success return the empty result. -/
def Reconcile (r : CronJobReconciler) (ctx : Context) (req : Request) (w : World) :
    (Result × Option Error) × World :=
  let _ := FromContext ctx
  match r.Get ctx req.NamespacedName w with
  | (Except.error err, w1) =>
    let w2 := Log.Error (some err) "unable to fetch CronJob" w1
    ((({} : Result), IgnoreNotFound (some err)), w2)
  | (Except.ok _, w1) => ((({} : Result), none), w1)

/-! ## Reading the marker of a child -/

/-- The value of the scheduled-time marker of a child, if it bears one. -/
def Job.scheduledAt (j : Job) : Option String :=
  (j.Annotations.find? (fun kv => kv.1 == scheduledTimeAnnotation)).map (fun kv => kv.2)

/-- The children of a cluster that bear the marker with the given value. -/
def Cluster.childrenMarked (c : Cluster) (stamp : String) : List Job :=
  c.jobs.filter (fun j => decide (j.scheduledAt = some stamp))

/-- Whether a client call writes to the cluster. -/
def ClientCall.isWrite : ClientCall → Bool
  | ClientCall.Get _ _ => false
  | ClientCall.Create _ _ => true
  | ClientCall.Update _ _ => true
  | ClientCall.Delete _ _ => true
  | ClientCall.StatusUpdate _ _ => true

/-! ## What an invocation leaves behind -/

/-- The world after the one fetch of an invocation. -/
def afterGet (ctx : Context) (req : Request) (w : World) : World :=
  { w with calls := w.calls ++ [ClientCall.Get ctx req.NamespacedName] }

/-- The entry `Reconcile` logs for a failed fetch. -/
def fetchFailure (e : Error) : LogEntry :=
  { logger := Log.name, level := LogLevel.error, err := some e, msg := "unable to fetch CronJob" }

/-- The error a fetch answer leads Reconcile to return. -/
def returnedError : Except Error CronJob → Option Error
  | Except.error e => IgnoreNotFound (some e)
  | Except.ok _ => none

/-! ## A call of `Reconcile` as Go runs it

`Reconcile` above is the method on a reconciler that holds a client whose `Get`
returns. Go allows more: the receiver pointer and the embedded interface may be
nil, and a method of an implementation may panic or never return. The
definitions below embed the same method body over those values. -/

/-- How a Go call ends: it returns a value, it panics with a value, or it never
returns. -/
inductive Outcome (α : Type) where
  | returned (a : α)
  | panicked (value : String)
  | blocked
  deriving DecidableEq, Repr

/-- An implementation of `client.Client` as Go allows it: its `Get` may return
an answer, panic, or never return. -/
structure ClientImpl where
  Get : Context → NamespacedName → Cluster → Outcome (Except Error CronJob)

/-- The struct a `*CronJobReconciler` points to, as Go allows it: the embedded
interfaces and the scheme pointer may each be nil, as in the zero value. -/
structure CronJobReconcilerValue where
  Client : Option ClientImpl
  Scheme : Option Scheme
  Clock : Option Clock

/-- The value of the run-time panic on a nil dereference. -/
def nilDereference : String :=
  "runtime error: invalid memory address or nil pointer dereference"

/-- A call `r.Reconcile(ctx, req)` for any receiver: `r.Get` panics on a nil
receiver or a nil embedded client; a panic or a block of the client is that of
the call; once `Get` has returned, the body goes on as in `Reconcile`. -/
def ReconcileCall (r : Option CronJobReconcilerValue) (ctx : Context) (req : Request)
    (w : World) : Outcome (Result × Option Error) × World :=
  let _ := FromContext ctx
  match r with
  | none => (Outcome.panicked nilDereference, w)
  | some rv =>
    match rv.Client with
    | none => (Outcome.panicked nilDereference, w)
    | some c =>
      let w1 : World := { w with calls := w.calls ++ [ClientCall.Get ctx req.NamespacedName] }
      match c.Get ctx req.NamespacedName w.cluster with
      | Outcome.panicked v => (Outcome.panicked v, w1)
      | Outcome.blocked => (Outcome.blocked, w1)
      | Outcome.returned (Except.error err) =>
        let w2 := Log.Error (some err) "unable to fetch CronJob" w1
        (Outcome.returned (({} : Result), IgnoreNotFound (some err)), w2)
      | Outcome.returned (Except.ok _) => (Outcome.returned (({} : Result), none), w1)

/-- A client whose `Get` returns, as an implementation. -/
def Client.impl (c : Client) : ClientImpl where
  Get := fun ctx key cluster => Outcome.returned (c.Get ctx key cluster)

/-- A reconciler that holds its client, scheme and clock, as a struct value. -/
def CronJobReconciler.value (r : CronJobReconciler) : CronJobReconcilerValue :=
  ⟨some r.Client.impl, some r.Scheme, some r.Clock⟩

/-! ## Test doubles and concrete inputs -/

/-- Whether a CronJob is the one a key names. -/
def CronJob.hasKey (c : CronJob) (key : NamespacedName) : Bool :=
  c.Namespace == key.Namespace && c.Name == key.Name

/-- Whether a Job is the one a key names. -/
def Job.hasKey (j : Job) (key : NamespacedName) : Bool :=
  j.Namespace == key.Namespace && j.Name == key.Name

/-- A test client answering from the cluster state: a cancelled context fails
with the error of the context, an absent object with a not-found status error.
Its writers add, replace and remove objects. -/
def storeClient : Client where
  Get := fun ctx key cluster =>
    match ctx.Err with
    | some e => Except.error e
    | none =>
      match cluster.cronJobs.find? (fun c => c.hasKey key) with
      | some c => Except.ok c
      | none =>
        Except.error
          (Error.Status StatusReasonNotFound 404 "cronjobs.batch.tutorial.kubebuilder.io not found")
  Create := fun _ obj cluster =>
    match obj with
    | Object.cronJob c => (none, { cluster with cronJobs := cluster.cronJobs ++ [c] })
    | Object.job j => (none, { cluster with jobs := cluster.jobs ++ [j] })
  Update := fun _ obj cluster =>
    match obj with
    | Object.cronJob c =>
      (none, ⟨cluster.cronJobs.map (fun d => if d.hasKey ⟨c.Namespace, c.Name⟩ then c else d),
        cluster.jobs⟩)
    | Object.job j =>
      (none, ⟨cluster.cronJobs,
        cluster.jobs.map (fun d => if d.hasKey ⟨j.Namespace, j.Name⟩ then j else d)⟩)
  Delete := fun _ obj cluster =>
    match obj with
    | Object.cronJob c =>
      (none, ⟨cluster.cronJobs.filter (fun d => !(d.hasKey ⟨c.Namespace, c.Name⟩)),
        cluster.jobs⟩)
    | Object.job j =>
      (none, ⟨cluster.cronJobs,
        cluster.jobs.filter (fun d => !(d.hasKey ⟨j.Namespace, j.Name⟩))⟩)
  StatusUpdate := fun _ obj cluster =>
    match obj with
    | Object.cronJob c =>
      (none, ⟨cluster.cronJobs.map
        (fun d => if d.hasKey ⟨c.Namespace, c.Name⟩ then { d with Status := c.Status } else d),
        cluster.jobs⟩)
    | Object.job _ => (none, cluster)

/-- A test clock held at a fixed instant; it does not read the system clock. -/
def fixedClock (t : Time) : Clock where
  Now := fun w => (t, w)

/-- The instant 2024-01-01T00:00:00Z. -/
def newYear2024 : Time := 1704067200

/-- A reconciler over the test client with the clock fixed at 2024-01-01T00:00:00Z. -/
def testReconciler : CronJobReconciler :=
  ⟨storeClient, ⟨["CronJob", "Job"]⟩, fixedClock newYear2024⟩

/-- A reconciler over the test client with the production clock. -/
def prodReconciler : CronJobReconciler :=
  ⟨storeClient, ⟨["CronJob", "Job"]⟩, realClock⟩

/-- A live context carrying no logger. -/
def background : Context := ⟨none, none⟩

/-- The error `context.Canceled`. -/
def Canceled : Error := Error.Plain "context canceled"

/-- A cancelled context. -/
def cancelled : Context := ⟨some Canceled, none⟩

/-- The not-found error the test client answers with. -/
def notFound : Error :=
  Error.Status StatusReasonNotFound 404 "cronjobs.batch.tutorial.kubebuilder.io not found"

/-- A request for the identifier `("default", "missing")`. -/
def missingRequest : Request := ⟨⟨"default", "missing"⟩⟩

/-- A request for the identifier `("default", "nightly")`. -/
def nightlyRequest : Request := ⟨⟨"default", "nightly"⟩⟩

/-- A CronJob `default/nightly`. -/
def nightly : CronJob :=
  { Namespace := "default", Name := "nightly",
    Spec := { Schedule := "0 0 * * *", JobTemplate := "backup", ConcurrencyPolicy := "Forbid",
              Suspend := none, SuccessfulJobsHistoryLimit := some 3,
              FailedJobsHistoryLimit := some 1 },
    Status := { Active := [⟨"default", "nightly-1704067200"⟩],
                LastScheduleTime := some newYear2024 } }

/-- A child of `default/nightly` bearing the marker for 2024-01-01T00:00:00Z. -/
def nightlyChild : Job :=
  { Namespace := "default", Name := "nightly-1704067200",
    Owner := some ⟨"default", "nightly"⟩,
    Annotations := [( scheduledTimeAnnotation, "2024-01-01T00:00:00Z")] }

/-- A world whose cluster is empty. -/
def emptyWorld : World :=
  { cluster := ⟨[], []⟩, log := [], calls := [], now := 1762214400, clockReads := 0 }

/-- A world whose cluster holds `default/nightly` and its marked child. -/
def nightlyWorld : World :=
  { cluster := ⟨[nightly], [nightlyChild]⟩, log := [], calls := [], now := 1762214400,
    clockReads := 0 }


/-- The zero value `CronJobReconciler{}`: no client, no scheme, no clock. -/
def zeroReconciler : CronJobReconcilerValue := ⟨none, none, none⟩

/-- A client implementation whose `Get` panics. -/
def panickingClient : ClientImpl where
  Get := fun _ _ _ => Outcome.panicked "boom"

/-- A client implementation whose `Get` never returns. -/
def stuckClient : ClientImpl where
  Get := fun _ _ _ => Outcome.blocked

/-! ## How `Reconcile` unfolds on each answer of the fetch -/

/-- Reconcile on a failed fetch: the empty result, the error unless it is a
not-found, one call recorded and one entry logged. -/
theorem Reconcile_of_error (r : CronJobReconciler) (ctx : Context) (req : Request) (w : World)
    (e : Error) (h : r.Client.Get ctx req.NamespacedName w.cluster = Except.error e) :
    Reconcile r ctx req w =
      ((({} : Result), IgnoreNotFound (some e)),
        { afterGet ctx req w with log := w.log ++ [fetchFailure e] }) := by
  unfold Reconcile CronJobReconciler.Get
  simp only [h]
  rfl

/-- Reconcile on a successful fetch: the empty result, no error, one call
recorded. -/
theorem Reconcile_of_ok (r : CronJobReconciler) (ctx : Context) (req : Request) (w : World)
    (cj : CronJob) (h : r.Client.Get ctx req.NamespacedName w.cluster = Except.ok cj) :
    Reconcile r ctx req w = ((({} : Result), none), afterGet ctx req w) := by
  unfold Reconcile CronJobReconciler.Get
  simp only [h]
  rfl

/-- A not-found error is ignored. -/
theorem IgnoreNotFound_of_not_found (e : Error) (h : IsNotFound (some e) = true) :
    IgnoreNotFound (some e) = none := by
  simp [IgnoreNotFound, h]

/-- Any other error is kept as it is. -/
theorem IgnoreNotFound_of_other (e : Error) (h : IsNotFound (some e) = false) :
    IgnoreNotFound (some e) = some e := by
  simp [IgnoreNotFound, h]

/-- The pair Reconcile returns is decided by the answer of its fetch. -/
theorem Reconcile_fst (r : CronJobReconciler) (ctx : Context) (req : Request) (w : World) :
    (Reconcile r ctx req w).1
      = (({} : Result), returnedError (r.Client.Get ctx req.NamespacedName w.cluster)) := by
  cases h : r.Client.Get ctx req.NamespacedName w.cluster with
  | error e => rw [Reconcile_of_error r ctx req w e h]; rfl
  | ok cj => rw [Reconcile_of_ok r ctx req w cj h]; rfl

/-- Reconcile leaves the cluster as it found it. -/
theorem Reconcile_cluster (r : CronJobReconciler) (ctx : Context) (req : Request) (w : World) :
    (Reconcile r ctx req w).2.cluster = w.cluster := by
  cases h : r.Client.Get ctx req.NamespacedName w.cluster with
  | error e => rw [Reconcile_of_error r ctx req w e h]; rfl
  | ok cj => rw [Reconcile_of_ok r ctx req w cj h]; rfl

/-- Reconcile does not read the system clock. -/
theorem Reconcile_clockReads (r : CronJobReconciler) (ctx : Context) (req : Request)
    (w : World) : (Reconcile r ctx req w).2.clockReads = w.clockReads := by
  cases h : r.Client.Get ctx req.NamespacedName w.cluster with
  | error e => rw [Reconcile_of_error r ctx req w e h]; rfl
  | ok cj => rw [Reconcile_of_ok r ctx req w cj h]; rfl

/-- Reconcile adds exactly one Get to the trace of client calls. -/
theorem Reconcile_calls (r : CronJobReconciler) (ctx : Context) (req : Request) (w : World) :
    (Reconcile r ctx req w).2.calls = w.calls ++ [ClientCall.Get ctx req.NamespacedName] := by
  cases h : r.Client.Get ctx req.NamespacedName w.cluster with
  | error e => rw [Reconcile_of_error r ctx req w e h]; rfl
  | ok cj => rw [Reconcile_of_ok r ctx req w cj h]; rfl

/-- A call on a reconciler that holds a client whose Get returns is a run of
`Reconcile`. -/
theorem ReconcileCall_of_value (r : CronJobReconciler) (ctx : Context) (req : Request)
    (w : World) :
    ReconcileCall (some r.value) ctx req w
      = (Outcome.returned (Reconcile r ctx req w).1, (Reconcile r ctx req w).2) := by
  cases h : r.Client.Get ctx req.NamespacedName w.cluster with
  | error e =>
    rw [Reconcile_of_error r ctx req w e h]
    simp only [ReconcileCall, CronJobReconciler.value, Client.impl, h]
    rfl
  | ok cj =>
    rw [Reconcile_of_ok r ctx req w cj h]
    simp only [ReconcileCall, CronJobReconciler.value, Client.impl, h]
    rfl

/-- A call on a nil receiver panics. -/
theorem ReconcileCall_nil_receiver (ctx : Context) (req : Request) (w : World) :
    ReconcileCall none ctx req w = (Outcome.panicked nilDereference, w) := rfl

/-- A call on the zero value of the struct panics at `r.Get`. -/
theorem ReconcileCall_zero_value (ctx : Context) (req : Request) (w : World) :
    ReconcileCall (some zeroReconciler) ctx req w = (Outcome.panicked nilDereference, w) := rfl

/-- A panic of the client is a panic of the call. -/
theorem ReconcileCall_panicking_client (ctx : Context) (req : Request) (w : World) :
    (ReconcileCall (some ⟨some panickingClient, none, none⟩) ctx req w).1
      = Outcome.panicked "boom" := rfl

/-- A fetch that never returns blocks the call. -/
theorem ReconcileCall_stuck_client (ctx : Context) (req : Request) (w : World) :
    (ReconcileCall (some ⟨some stuckClient, none, none⟩) ctx req w).1 = Outcome.blocked := rfl

/-- An unrecognised reason with HTTP code 404 is a not-found for the library. -/
theorem IsNotFound_unrecognised_404 :
    IsNotFound (some (Error.Status "" 404 "")) = true ∧
      IsNotFound (some (Error.Status "" 500 "")) = false ∧
      IsNotFound (some (Error.Status "Forbidden" 404 "")) = false ∧
      IsNotFound (some (Error.Wrapped "get" (Error.Status "NotFound" 404 ""))) = true ∧
      IsNotFound none = false := by
  decide

/-! ## The claims -/

/-- C1: when the Get of the client fails with a not-found error, Reconcile returns
the empty Result together with a nil error. -/
theorem Reconcile_absent_is_noop (r : CronJobReconciler) (ctx : Context) (req : Request) (w : World)
    (e : Error) (hget : r.Client.Get ctx req.NamespacedName w.cluster = Except.error e)
    (hnf : IsNotFound (some e) = true) :
    (Reconcile r ctx req w).1 = (({} : Result), none) := by
  rw [Reconcile_of_error r ctx req w e hget, IgnoreNotFound_of_not_found e hnf]

/-- Witness of C1: the identifier `("default", "missing")` on an empty cluster. -/
theorem Reconcile_absent_is_noop_witness :
    storeClient.Get background missingRequest.NamespacedName emptyWorld.cluster
        = Except.error notFound ∧
      IsNotFound (some notFound) = true ∧
      (Reconcile testReconciler background missingRequest emptyWorld).1
        = (({} : Result), none) :=
  ⟨rfl, rfl, Reconcile_absent_is_noop testReconciler background missingRequest emptyWorld notFound
    rfl rfl⟩

/-- C2: when the Get of the client fails with an error that is not a not-found,
Reconcile returns exactly that error. -/
theorem Reconcile_other_error (r : CronJobReconciler) (ctx : Context) (req : Request)
    (w : World) (e : Error)
    (hget : r.Client.Get ctx req.NamespacedName w.cluster = Except.error e)
    (hnf : IsNotFound (some e) = false) :
    (Reconcile r ctx req w).1.2 = some e := by
  rw [Reconcile_of_error r ctx req w e hget, IgnoreNotFound_of_other e hnf]

/-- Witness of C2: a cancelled context makes the fetch fail with
`context.Canceled`, which Reconcile returns. -/
theorem Reconcile_other_error_witness :
    storeClient.Get cancelled nightlyRequest.NamespacedName nightlyWorld.cluster
        = Except.error Canceled ∧
      IsNotFound (some Canceled) = false ∧
      (Reconcile testReconciler cancelled nightlyRequest nightlyWorld).1.2 = some Canceled :=
  ⟨rfl, rfl, Reconcile_other_error testReconciler cancelled nightlyRequest nightlyWorld Canceled
    rfl rfl⟩

/-- C3: when the Get of the client succeeds, Reconcile returns the empty Result and
a nil error, whatever the fetched resource holds. -/
theorem Reconcile_found (r : CronJobReconciler) (ctx : Context) (req : Request) (w : World)
    (cj : CronJob) (hget : r.Client.Get ctx req.NamespacedName w.cluster = Except.ok cj) :
    (Reconcile r ctx req w).1 = (({} : Result), none) := by
  rw [Reconcile_of_ok r ctx req w cj hget]

/-- Witness of C3: the existing resource `default/nightly`, with the clock
fixed at 2024-01-01T00:00:00Z. -/
theorem Reconcile_found_witness :
    testReconciler.Clock = fixedClock 1704067200 ∧
      storeClient.Get background nightlyRequest.NamespacedName nightlyWorld.cluster
        = Except.ok nightly ∧
      (Reconcile testReconciler background nightlyRequest nightlyWorld).1
        = (({} : Result), none) :=
  ⟨rfl, rfl, Reconcile_found testReconciler background nightlyRequest nightlyWorld nightly rfl⟩

/-- C4: Reconcile performs no write on cluster state: the Tracked Resources
and the child Jobs after it are those before it, every client call it issues is
a read, and the children bearing a given scheduled-at marker are the same, so
no second child appears. -/
theorem Reconcile_no_write (r : CronJobReconciler) (ctx : Context) (req : Request)
    (w : World) :
    (Reconcile r ctx req w).2.cluster.cronJobs = w.cluster.cronJobs ∧
      (Reconcile r ctx req w).2.cluster.jobs = w.cluster.jobs ∧
      (∀ c ∈ (Reconcile r ctx req w).2.calls, c ∈ w.calls ∨ c.isWrite = false) ∧
      ∀ stamp : String, (Reconcile r ctx req w).2.cluster.childrenMarked stamp
        = w.cluster.childrenMarked stamp := by
  cases h : r.Client.Get ctx req.NamespacedName w.cluster with
  | error e =>
    rw [Reconcile_of_error r ctx req w e h]
    refine ⟨rfl, rfl, ?_, fun _ => rfl⟩
    intro c hc
    simp only [afterGet, List.mem_append, List.mem_singleton] at hc
    rcases hc with hc | hc
    · exact Or.inl hc
    · exact Or.inr (by rw [hc]; rfl)
  | ok cj =>
    rw [Reconcile_of_ok r ctx req w cj h]
    refine ⟨rfl, rfl, ?_, fun _ => rfl⟩
    intro c hc
    simp only [afterGet, List.mem_append, List.mem_singleton] at hc
    rcases hc with hc | hc
    · exact Or.inl hc
    · exact Or.inr (by rw [hc]; rfl)

/-- C5: Reconcile is idempotent: a second invocation right after the first
returns the same Result and error, and leaves the cluster state the first one
left. -/
theorem Reconcile_idempotent (r : CronJobReconciler) (ctx : Context) (req : Request)
    (w : World) :
    (Reconcile r ctx req (Reconcile r ctx req w).2).1 = (Reconcile r ctx req w).1 ∧
      (Reconcile r ctx req (Reconcile r ctx req w).2).2.cluster
        = (Reconcile r ctx req w).2.cluster := by
  constructor
  · rw [Reconcile_fst r ctx req (Reconcile r ctx req w).2, Reconcile_fst r ctx req w,
      Reconcile_cluster r ctx req w]
  · rw [Reconcile_cluster r ctx req (Reconcile r ctx req w).2]

/-- C6: the outcome of Reconcile is independent of time: with any two clocks
injected and at any two wall-clock instants, the same request on the same
cluster state returns the same Result and error, and neither invocation reads
the system clock. -/
theorem Reconcile_clock_independent (client : Client) (scheme : Scheme) (c₁ c₂ : Clock)
    (t₁ t₂ : Time) (ctx : Context) (req : Request) (w : World) :
    (Reconcile ⟨client, scheme, c₁⟩ ctx req { w with now := t₁ }).1
        = (Reconcile ⟨client, scheme, c₂⟩ ctx req { w with now := t₂ }).1 ∧
      (Reconcile ⟨client, scheme, c₁⟩ ctx req { w with now := t₁ }).2.clockReads
        = w.clockReads ∧
      (Reconcile ⟨client, scheme, c₂⟩ ctx req { w with now := t₂ }).2.clockReads
        = w.clockReads := by
  refine ⟨?_, ?_, ?_⟩
  · rw [Reconcile_fst, Reconcile_fst]
  · rw [Reconcile_clockReads]
  · rw [Reconcile_clockReads]

/-- C7, as the code has it: when the Get of the client fails with a not-found
error, Reconcile returns the empty Result and a nil error, and hands exactly
one entry to the global logger: an error entry carrying the not-found error and
the message "unable to fetch CronJob". -/
theorem Reconcile_missing_logged_and_recovered (r : CronJobReconciler) (ctx : Context)
    (req : Request) (w : World) (e : Error)
    (hget : r.Client.Get ctx req.NamespacedName w.cluster = Except.error e)
    (hnf : IsNotFound (some e) = true) :
    (Reconcile r ctx req w).1 = (({} : Result), none) ∧
      (Reconcile r ctx req w).2.log
        = w.log ++ [⟨"", LogLevel.error, some e, "unable to fetch CronJob"⟩] := by
  rw [Reconcile_of_error r ctx req w e hget, IgnoreNotFound_of_not_found e hnf]
  exact ⟨rfl, rfl⟩

/-- Witness of C7 as the code has it: the identifier `("default", "missing")`
on a cluster that holds another resource. -/
theorem Reconcile_missing_logged_and_recovered_witness :
    storeClient.Get background missingRequest.NamespacedName nightlyWorld.cluster
        = Except.error notFound ∧
      IsNotFound (some notFound) = true ∧
      (Reconcile prodReconciler background missingRequest nightlyWorld).1
        = (({} : Result), none) ∧
      (Reconcile prodReconciler background missingRequest nightlyWorld).2.log
        = nightlyWorld.log
          ++ [⟨"", LogLevel.error, some notFound, "unable to fetch CronJob"⟩] :=
  ⟨rfl, rfl,
    Reconcile_missing_logged_and_recovered prodReconciler background missingRequest nightlyWorld notFound
      rfl rfl⟩

/-- C7 as stated fails: on the identifier `("default", "missing")` of an empty
cluster the fetch fails with a not-found error, and Reconcile emits an error-log
entry, whereas the log is left as it was when the fetch succeeds. -/
theorem Reconcile_missing_not_silent :
    storeClient.Get background missingRequest.NamespacedName emptyWorld.cluster
        = Except.error notFound ∧
      IsNotFound (some notFound) = true ∧
      (Reconcile testReconciler background missingRequest emptyWorld).2.log
        = [⟨"", LogLevel.error, some notFound, "unable to fetch CronJob"⟩] ∧
      (Reconcile testReconciler background missingRequest emptyWorld).2.log ≠ emptyWorld.log ∧
      (Reconcile testReconciler background nightlyRequest nightlyWorld).2.log
        = nightlyWorld.log := by
  refine ⟨rfl, rfl, rfl, ?_, rfl⟩
  decide

/-- C8: every invocation of Reconcile issues exactly one client Get, keyed by
the identifier of the request and passed the context of the invocation,
whatever its answer; and the pair returned is decided by that answer. -/
theorem Reconcile_one_get (r : CronJobReconciler) (ctx : Context) (req : Request)
    (w : World) :
    (Reconcile r ctx req w).2.calls = w.calls ++ [ClientCall.Get ctx req.NamespacedName] ∧
      (Reconcile r ctx req w).1
        = (({} : Result), returnedError (r.Client.Get ctx req.NamespacedName w.cluster)) :=
  ⟨Reconcile_calls r ctx req w, Reconcile_fst r ctx req w⟩

/-- C9: no condition is fatal: for a reconciler holding a client, whatever
that client answers to the Get (success, a not-found error or any other error),
the call of Reconcile neither panics nor blocks: it returns to its caller the
empty Result with no error on success and on not-found, and with the error of
the Get otherwise. -/
theorem ReconcileCall_returns (rv : CronJobReconcilerValue) (c : ClientImpl) (ctx : Context)
    (req : Request) (w : World) (a : Except Error CronJob)
    (hclient : rv.Client = some c)
    (hget : c.Get ctx req.NamespacedName w.cluster = Outcome.returned a) :
    (ReconcileCall (some rv) ctx req w).1
        = Outcome.returned (({} : Result), returnedError a) ∧
      (∀ cj, a = Except.ok cj → returnedError a = none) ∧
      (∀ e, a = Except.error e → IsNotFound (some e) = true → returnedError a = none) ∧
      (∀ e, a = Except.error e → IsNotFound (some e) = false → returnedError a = some e) := by
  refine ⟨?_, ?_, ?_, ?_⟩
  · cases a with
    | error e => simp only [ReconcileCall, hclient, hget, returnedError]
    | ok cj => simp only [ReconcileCall, hclient, hget, returnedError]
  · intro cj h
    rw [h]
    rfl
  · intro e h hnf
    rw [h]
    exact IgnoreNotFound_of_not_found e hnf
  · intro e h hnf
    rw [h]
    exact IgnoreNotFound_of_other e hnf

/-- Witness of C9: a call on a reconciler holding the test client, whose Get
answers the identifier `("default", "missing")` with a not-found error. -/
theorem ReconcileCall_returns_witness :
    testReconciler.value.Client = some storeClient.impl ∧
      storeClient.impl.Get background missingRequest.NamespacedName emptyWorld.cluster
        = Outcome.returned (Except.error notFound) ∧
      (ReconcileCall (some testReconciler.value) background missingRequest emptyWorld).1
        = Outcome.returned (({} : Result), none) :=
  ⟨rfl, rfl,
    (ReconcileCall_returns testReconciler.value storeClient.impl background missingRequest
      emptyWorld (Except.error notFound) rfl rfl).1⟩

/-- C10: on every path the Result returned by Reconcile is the zero value,
with Requeue false and RequeueAfter zero. -/
theorem Reconcile_result_zero (r : CronJobReconciler) (ctx : Context) (req : Request)
    (w : World) :
    (Reconcile r ctx req w).1.1 = ({} : Result) ∧
      (Reconcile r ctx req w).1.1.Requeue = false ∧
      (Reconcile r ctx req w).1.1.RequeueAfter = 0 := by
  rw [Reconcile_fst r ctx req w]
  exact ⟨rfl, rfl, rfl⟩

end controllers
